import Mathlib

/-!
Verification of the routes64 branching-narrative core: the scenario graph
model (`src/scenario.rs`), the traversal/transition algorithm, ending
detection, the versioned save/load persistence (`src/save.rs`), and the
restart/auto-save session wiring (`src/app_impl.rs`), shallowly embedded
in Lean.  Rust `usize` arithmetic is modelled on `Nat` with the underflow
of `-` made explicit (a debug-build panic is `none`); the `HashMap` of
nodes is modelled as an association list where a later insert shadows an
earlier binding, which is observationally the HashMap's overwrite
semantics; file contents live inline in the `SaveManager` model.
-/

namespace Routes64

/-- One outgoing choice of a node: `Choice { label, to }` from scenario.rs.
The source's field `to` is a reserved word in Lean, so it is spelled
`target_id`, the name the design document uses for it. -/
structure Choice where
  label : String
  target_id : String
deriving DecidableEq

/-- The ending tag carried by canonical terminal nodes. -/
structure Ending where
  tag : String
deriving DecidableEq

/-- One narrative node, as deserialized from the scenario JSON. -/
structure Node where
  id : String
  text : String
  bg : Option String
  choices : List Choice
  ending : Option Ending
deriving DecidableEq

/-- Scenario metadata from scenario.rs (`Meta`). -/
structure Meta where
  title : String
  depth : Nat
  default_background : String
  rain_bgm : String
  font : String
deriving DecidableEq

/-- A structurally parsed scenario definition (`Scenario` in scenario.rs);
the claims quantify over these, serde parsing itself being external. -/
structure Scenario where
  meta : Meta
  nodes : List Node
deriving DecidableEq

/-- The `HashMap<String, Node>` is modelled as an association list; an
insert prepends, and lookups take the most recent binding, so a duplicate
id shadows (overwrites) the earlier one exactly as `HashMap::insert` does. -/
def insertNode (m : List (String × Node)) (k : String) (v : Node) :
    List (String × Node) :=
  (k, v) :: m

/-- Lookup in the modelled map: the most recent binding for the key. -/
def mapGet (m : List (String × Node)) (k : String) : Option Node :=
  (m.find? (fun p => p.1 == k)).map Prod.snd

/-- Membership test, `HashMap::contains_key`. -/
def containsKey (m : List (String × Node)) (k : String) : Bool :=
  m.any (fun p => p.1 == k)

/-- `ScenarioData` from scenario.rs: the parsed scenario plus the id → node
map built from it. -/
structure ScenarioData where
  scenario : Scenario
  nodes : List (String × Node)
deriving DecidableEq

/-- The map-building loop of `ScenarioData::load_from_json`:
`for node in &scenario.nodes { nodes.insert(node.id.clone(), node.clone()) }`. -/
def buildNodes (ns : List Node) : List (String × Node) :=
  ns.foldl (fun m n => insertNode m n.id n) []

/-- Load failure (`anyhow::Error` in the source, carrying a message about
the offending reference; the message itself is abstracted away). -/
inductive LoadError where
  | invalidReference
deriving DecidableEq

/-- `ScenarioData::validate_references`: every `choice.to` of every node
must be a key of the node map; `true` means validation passes. -/
def validate_references (sd : ScenarioData) : Bool :=
  sd.scenario.nodes.all (fun n => n.choices.all (fun c => containsKey sd.nodes c.target_id))

/-- `ScenarioData::load_from_json` after serde parsing: build the map, run
`validate` (reference validation is fatal; `validate_endings` only logs a
warning and cannot fail, so it does not appear in the result). -/
def load_from_json (s : Scenario) : Except LoadError ScenarioData :=
  let sd : ScenarioData := { scenario := s, nodes := buildNodes s.nodes }
  if validate_references sd then Except.ok sd else Except.error LoadError.invalidReference

/-- The `Current` resource from scenario.rs: the traversal state. -/
structure Current where
  id : String
  depth : Nat
  trail : List String
deriving DecidableEq

/-- `impl Default for Current`: root id, depth 0, trail `["R"]`. -/
def Current.default : Current :=
  { id := "R", depth := 0, trail := ["R"] }

/-- `ScenarioData::get_node`. -/
def get_node (sd : ScenarioData) (id : String) : Option Node :=
  mapGet sd.nodes id

/-- `ScenarioData::get_node_or_fallback`: exact match, else root `"R"`,
else the first node in definition order; `none` stands for the final
`panic!` on an empty node list. -/
def get_node_or_fallback (sd : ScenarioData) (id : String) : Option Node :=
  match mapGet sd.nodes id with
  | some node => some node
  | none =>
    match mapGet sd.nodes "R" with
    | some root_node => some root_node
    | none => sd.scenario.nodes.head?

/-- The two failure messages `ScenarioData::transition` can produce
(`anyhow!` messages in the source, given symbolic names here). -/
inductive TransitionError where
  | nodeNotFound (id : String)
  | invalidChoiceIndex (index : Nat) (id : String)
deriving DecidableEq

/-- Rust `usize` subtraction `a - b` in debug semantics: `none` is the
underflow panic.  (A release build would instead wrap modulo `2 ^ 64`.) -/
def usizeSub (a b : Nat) : Option Nat :=
  if b ≤ a then some (a - b) else none

/-- `ScenarioData::transition`.  The outer `Option` is `none` exactly when
the Rust code panics, namely when `next_id.len() - 1` underflows because
the chosen target id is the empty string. -/
def transition (sd : ScenarioData) (current : Current) (choice_index : Nat) :
    Option (Except TransitionError Current) :=
  match get_node sd current.id with
  | none => some (Except.error (TransitionError.nodeNotFound current.id))
  | some node =>
    if h : choice_index < node.choices.length then
      let next_id := (node.choices[choice_index]).target_id
      match usizeSub next_id.length 1 with
      | none => none
      | some new_depth =>
        some (Except.ok
          { id := next_id, depth := new_depth, trail := current.trail ++ [next_id] })
    else
      some (Except.error (TransitionError.invalidChoiceIndex choice_index current.id))

/-- `ScenarioData::is_ending`: depth must equal the scenario depth and the
resolved node must carry an ending tag; otherwise `false`. -/
def is_ending (sd : ScenarioData) (current : Current) : Bool :=
  if current.depth = sd.scenario.meta.depth then
    match get_node sd current.id with
    | some node => node.ending.isSome
    | none => false
  else false

/-- `SaveData` from save.rs: the versioned durable snapshot.  `version` is
a `u8` in the source; the program only ever writes the literal `1` and
only compares against `1`, so no modular arithmetic arises. -/
structure SaveData where
  version : Nat
  current : String
  depth : Nat
  trail : List String
deriving DecidableEq

/-- The state of the save file on disk: not present, present but failing
to deserialize as a `SaveData` (covering unreadable or malformed JSON), or
holding a deserializable record. -/
inductive FileContents where
  | absent
  | garbage
  | record (d : SaveData)
deriving DecidableEq

/-- The persistence errors of save.rs, a read or deserialize failure of
`load` (the `anyhow` contexts, abstracted to a symbolic value). -/
inductive PersistenceError where
  | deserializeFailed
deriving DecidableEq

/-- `SaveManager` from save.rs together with the contents of the file at
its `save_path`, so that the save/load pair is a pure state transformer. -/
structure SaveManager where
  file : FileContents
  disabled : Bool
deriving DecidableEq

/-- `SaveManager::save`: a no-op in disabled mode, otherwise serializes a
version-1 record of the flattened `Current` and overwrites the file.  The
write itself succeeds in this model, so the result is the new manager. -/
def SaveManager.save (m : SaveManager) (current : Current) : SaveManager :=
  if m.disabled then m
  else
    { m with
      file := FileContents.record
        { version := 1, current := current.id, depth := current.depth,
          trail := current.trail } }

/-- `SaveManager::load`: `Ok(None)` when disabled or no file; an error when
the file cannot be deserialized; `Ok(None)` with only a logged warning when
the record's version differs from 1; otherwise the rebuilt `Current`,
whose fields are copied verbatim from the record. -/
def SaveManager.load (m : SaveManager) : Except PersistenceError (Option Current) :=
  if m.disabled then Except.ok none
  else
    match m.file with
    | FileContents.absent => Except.ok none
    | FileContents.garbage => Except.error PersistenceError.deserializeFailed
    | FileContents.record d =>
      if d.version ≠ 1 then Except.ok none
      else Except.ok (some { id := d.current, depth := d.depth, trail := d.trail })

/-- `SaveManager::has_save`: existence of the file, no deserialization,
always false in disabled mode. -/
def SaveManager.has_save (m : SaveManager) : Bool :=
  if m.disabled then false
  else
    match m.file with
    | FileContents.absent => false
    | FileContents.garbage => true
    | FileContents.record _ => true

/-- `AppState` from states.rs. -/
inductive AppState where
  | Boot
  | Title
  | Playing
  | Ending
deriving DecidableEq

/-- The Bevy resources that the restart and auto-save systems touch,
gathered into one value: the app state, the `Current` resource (inserted
at boot, `none` before that), and the save manager with its file. -/
structure Session where
  app_state : AppState
  current : Option Current
  save_manager : SaveManager
deriving DecidableEq

/-- `handle_restart` from app_impl.rs: for a pending `RestartGame` event it
sets the next state to `Title`; it takes no other resources, so the
`Current` resource and the save manager are untouched. -/
def handle_restart (sess : Session) (restart_event : Bool) : Session :=
  if restart_event then { sess with app_state := AppState.Title } else sess

/-- `auto_save_system` from save.rs together with its schedule condition
`run_if(in_state(AppState::Playing))` from app_impl.rs: saves when the
`Current` resource changed this frame and its depth is positive.  The
`changed` flag models `current.is_changed()`; a save failure is only
logged, which the pure model's always-succeeding save subsumes. -/
def auto_save_system (sess : Session) (changed : Bool) : Session :=
  if sess.app_state = AppState.Playing then
    match sess.current with
    | some c =>
      if changed = true ∧ c.depth > 0 then
        { sess with save_manager := sess.save_manager.save c }
      else sess
    | none => sess
  else sess

/-! Helper lemmas about the node map built by `load_from_json`. -/

/-- The fold of `buildNodes` prepends, so the built map is the reversed
list of `(id, node)` pairs. -/
theorem buildNodes_eq (ns : List Node) :
    buildNodes ns = (ns.map (fun n => (n.id, n))).reverse := by
  have h : ∀ m : List (String × Node),
      ns.foldl (fun m n => insertNode m n.id n) m
        = (ns.map (fun n => (n.id, n))).reverse ++ m := by
    induction ns with
    | nil => intro m; rfl
    | cons n tl ih =>
      intro m
      rw [List.foldl_cons, ih]
      simp [insertNode, List.append_assoc]
  simpa using h []

/-- Every binding of the built map pairs a node of the scenario with its
own id. -/
theorem mem_buildNodes {ns : List Node} {p : String × Node}
    (hp : p ∈ buildNodes ns) : p.1 = p.2.id ∧ p.2 ∈ ns := by
  rw [buildNodes_eq, List.mem_reverse, List.mem_map] at hp
  obtain ⟨n, hn, hpn⟩ := hp
  cases hpn
  exact ⟨rfl, hn⟩

/-- A successful lookup in the built map returns a node of the scenario
whose id is the looked-up key. -/
theorem mapGet_buildNodes_some {ns : List Node} {k : String} {v : Node}
    (h : mapGet (buildNodes ns) k = some v) : v.id = k ∧ v ∈ ns := by
  unfold mapGet at h
  cases hf : List.find? (fun p => p.1 == k) (buildNodes ns) with
  | none => rw [hf] at h; simp at h
  | some p =>
    rw [hf] at h
    simp only [Option.map_some'] at h
    have hpred := List.find?_some hf
    have hmem : p ∈ buildNodes ns := List.mem_of_find?_eq_some hf
    have hkey := mem_buildNodes hmem
    have hk : p.1 = k := by simpa using hpred
    have h2 : p.2 = v := Option.some.inj h
    refine ⟨?_, ?_⟩
    · rw [← h2, ← hkey.1, hk]
    · rw [← h2]; exact hkey.2

/-- A lookup in the built map succeeds exactly when some node of the
scenario has the looked-up key as its id. -/
theorem mapGet_buildNodes_isSome_iff (ns : List Node) (k : String) :
    (mapGet (buildNodes ns) k).isSome = true ↔ ∃ n ∈ ns, n.id = k := by
  unfold mapGet
  rw [Option.isSome_map', List.find?_isSome]
  constructor
  · rintro ⟨p, hp, hpred⟩
    have hkey := mem_buildNodes hp
    refine ⟨p.2, hkey.2, ?_⟩
    have hk : p.1 = k := by simpa using hpred
    rw [← hkey.1, hk]
  · rintro ⟨n, hn, hid⟩
    refine ⟨(n.id, n), ?_, ?_⟩
    · rw [buildNodes_eq, List.mem_reverse, List.mem_map]
      exact ⟨n, hn, rfl⟩
    · simpa using hid

/-- `contains_key` agrees with `get(...).is_some()` on the modelled map. -/
theorem containsKey_eq_isSome (m : List (String × Node)) (k : String) :
    containsKey m k = (mapGet m k).isSome := by
  unfold containsKey mapGet
  rw [Bool.eq_iff_iff, Option.isSome_map', List.any_eq_true, List.find?_isSome]

/-- A string has length zero exactly when it is the empty string. -/
theorem string_length_eq_zero_iff (s : String) : s.length = 0 ↔ s = "" := by
  constructor
  · intro h
    cases s with
    | mk data =>
      have hd : data = [] := List.length_eq_zero.mp h
      rw [hd]
  · intro h
    rw [h]
    rfl

/-- Unfolding of a successful `load_from_json`: the returned `ScenarioData`
keeps the parsed scenario and carries the map built from its nodes. -/
theorem load_from_json_ok {s : Scenario} {sd : ScenarioData}
    (h : load_from_json s = Except.ok sd) :
    sd.scenario = s ∧ sd.nodes = buildNodes s.nodes := by
  unfold load_from_json at h
  by_cases hv : validate_references { scenario := s, nodes := buildNodes s.nodes } = true
  · rw [if_pos hv] at h
    cases h
    exact ⟨rfl, rfl⟩
  · rw [if_neg hv] at h
    cases h

/-! Concrete scenarios used by witnesses and counterexamples. -/

/-- Root node of the depth-2 sample scenario (shape of the test fixture in
scenario.rs: a full binary tree with endings on the four leaves). -/
def rootNode : Node :=
  { id := "R", text := "rain", bg := some "bg01", ending := none,
    choices := [{ label := "go out", target_id := "R1" },
                { label := "stay in", target_id := "R0" }] }

/-- Interior node `R1` of the sample scenario. -/
def nodeR1 : Node :=
  { id := "R1", text := "keys", bg := none, ending := none,
    choices := [{ label := "umbrella", target_id := "R11" },
                { label := "run", target_id := "R10" }] }

/-- Interior node `R0` of the sample scenario. -/
def nodeR0 : Node :=
  { id := "R0", text := "stay", bg := none, ending := none,
    choices := [{ label := "read", target_id := "R01" },
                { label := "sleep", target_id := "R00" }] }

/-- Leaf `R11` of the sample scenario, tagged as an ending. -/
def nodeR11 : Node :=
  { id := "R11", text := "umbrella end", bg := none, choices := [],
    ending := some { tag := "umbrellaEnd" } }

/-- Leaf `R10` of the sample scenario, tagged as an ending. -/
def nodeR10 : Node :=
  { id := "R10", text := "run end", bg := none, choices := [],
    ending := some { tag := "runEnd" } }

/-- Leaf `R01` of the sample scenario, tagged as an ending. -/
def nodeR01 : Node :=
  { id := "R01", text := "read end", bg := none, choices := [],
    ending := some { tag := "readEnd" } }

/-- Leaf `R00` of the sample scenario, with no ending tag (a dead branch). -/
def nodeR00 : Node :=
  { id := "R00", text := "sleep", bg := none, choices := [], ending := none }

/-- The depth-2 sample scenario. -/
def sampleScenario : Scenario :=
  { meta := { title := "sample", depth := 2, default_background := "bg01",
              rain_bgm := "rain", font := "font" },
    nodes := [rootNode, nodeR1, nodeR0, nodeR11, nodeR10, nodeR01, nodeR00] }

/-- The sample scenario as loaded. -/
def sampleSD : ScenarioData :=
  { scenario := sampleScenario, nodes := buildNodes sampleScenario.nodes }

/-- A root whose two choices both target the node with the empty id. -/
def cexRoot : Node :=
  { id := "R", text := "start", bg := none, ending := none,
    choices := [{ label := "fall", target_id := "" },
                { label := "also fall", target_id := "" }] }

/-- A node whose id is the empty string. -/
def emptyIdNode : Node :=
  { id := "", text := "void", bg := none, choices := [], ending := none }

/-- A scenario that passes structural parsing and referential validation
even though its choice targets are the empty-string id. -/
def cexScenario : Scenario :=
  { meta := { title := "cex", depth := 1, default_background := "bg",
              rain_bgm := "rain", font := "font" },
    nodes := [cexRoot, emptyIdNode] }

/-- The empty-target scenario as loaded. -/
def cexSD : ScenarioData :=
  { scenario := cexScenario, nodes := buildNodes cexScenario.nodes }

/-- Successful transition under a non-empty target id: shared between the
transition-shape and error-trichotomy results. -/
theorem transition_ok_of_nonempty_target (sd : ScenarioData) (cur : Current)
    (i : Nat) (node : Node) (ch : Choice)
    (hnode : get_node sd cur.id = some node)
    (hch : node.choices[i]? = some ch)
    (hne : ch.target_id ≠ "") :
    transition sd cur i =
      some (Except.ok
        { id := ch.target_id, depth := ch.target_id.length - 1,
          trail := cur.trail ++ [ch.target_id] }) := by
  obtain ⟨hi, hgt⟩ := List.getElem?_eq_some.mp hch
  have hlen : 1 ≤ ch.target_id.length := by
    cases Nat.eq_zero_or_pos ch.target_id.length with
    | inl hz => exact absurd ((string_length_eq_zero_iff ch.target_id).mp hz) hne
    | inr hpos => exact hpos
  unfold transition usizeSub
  simp only [hnode, hgt, dif_pos hi, if_pos hlen]

/-! The claims. -/

/-- C1 counterexample: in the loaded empty-target scenario the default
state's id resolves to the root node and choice index 0 is within its two
choices, yet `transition` returns no new `TraversalState` at all — the
`next_id.len() - 1` computation panics (modelled as `none`) because the
chosen target id is the empty string. -/
theorem transition_in_range_without_new_state :
    load_from_json cexScenario = Except.ok cexSD ∧
    get_node cexSD Current.default.id = some cexRoot ∧
    0 < cexRoot.choices.length ∧
    transition cexSD Current.default 0 = none :=
  ⟨rfl, rfl, by decide, rfl⟩

/-- C1 (amended): for every loaded scenario, every state whose id resolves
to a node, and every in-range choice index whose chosen target id is
non-empty, `transition` returns the new state whose id is the choice's
target id, whose depth is `length(next_id) - 1`, and whose trail is the
old trail with `next_id` appended.  Purity — not mutating the input and
returning identical results on identical inputs — is intrinsic to the
embedding, where `transition` is a function of its arguments.  The
amendment adds the non-emptiness of the target id, forced by the
underflow counterexample. -/
theorem transition_success_shape (s : Scenario) (sd : ScenarioData)
    (cur : Current) (i : Nat) (node : Node) (ch : Choice)
    (_hload : load_from_json s = Except.ok sd)
    (hnode : get_node sd cur.id = some node)
    (hch : node.choices[i]? = some ch)
    (hne : ch.target_id ≠ "") :
    transition sd cur i =
      some (Except.ok
        { id := ch.target_id, depth := ch.target_id.length - 1,
          trail := cur.trail ++ [ch.target_id] }) :=
  transition_ok_of_nonempty_target sd cur i node ch hnode hch hne

/-- C1 witness: the sample transition from the root by choice 0 lands on
`R1` at depth 1 with trail `["R", "R1"]`. -/
theorem transition_success_shape_witness :
    transition sampleSD Current.default 0 =
      some (Except.ok { id := "R1", depth := 1, trail := ["R", "R1"] }) :=
  transition_success_shape sampleScenario sampleSD Current.default 0 rootNode
    { label := "go out", target_id := "R1" } rfl rfl rfl (by decide)

/-- C2 counterexample: the persistence load path copies the depth field
verbatim from the save record, so a version-1 record whose depth has
drifted from `length(id) - 1` is returned as-is: the claimed invariant
does not hold for states returned by `load`, and depth is not recomputed
there. -/
theorem load_returns_drifted_depth :
    SaveManager.load
        { file := FileContents.record
            { version := 1, current := "R", depth := 5, trail := ["R"] },
          disabled := false }
      = Except.ok (some { id := "R", depth := 5, trail := ["R"] }) ∧
    ("R".length - 1 : Nat) = 0 ∧
    (5 : Nat) ≠ 0 :=
  ⟨rfl, by decide, by decide⟩

/-- C2 (amended): the fresh default state satisfies
`depth = length(id) - 1`, and so does every state returned by a successful
`transition`; the persistence load path, however, assigns the depth
verbatim from the save record without recomputing it, so a loaded state
satisfies the invariant only when the record on disk does. -/
theorem depth_invariant_sources :
    (Current.default.depth = Current.default.id.length - 1) ∧
    (∀ sd cur i c, transition sd cur i = some (Except.ok c) →
      c.depth = c.id.length - 1) ∧
    (∀ m c, SaveManager.load m = Except.ok (some c) →
      ∃ d, m.file = FileContents.record d ∧ d.version = 1 ∧
        c = { id := d.current, depth := d.depth, trail := d.trail }) := by
  refine ⟨rfl, ?_, ?_⟩
  · intro sd cur i c h
    unfold transition at h
    cases hg : get_node sd cur.id with
    | none => rw [hg] at h; simp at h
    | some node =>
      rw [hg] at h
      simp only at h
      by_cases hi : i < node.choices.length
      · rw [dif_pos hi] at h
        cases hu : usizeSub (node.choices[i]).target_id.length 1 with
        | none => rw [hu] at h; simp at h
        | some nd =>
          rw [hu] at h
          simp only [Option.some.injEq, Except.ok.injEq] at h
          unfold usizeSub at hu
          by_cases hl : 1 ≤ (node.choices[i]).target_id.length
          · rw [if_pos hl] at hu
            cases hu
            cases h
            rfl
          · rw [if_neg hl] at hu
            cases hu
      · rw [dif_neg hi] at h
        simp at h
  · intro m c h
    unfold SaveManager.load at h
    by_cases hd : m.disabled = true
    · rw [if_pos hd] at h
      simp at h
    · rw [if_neg hd] at h
      cases hf : m.file with
      | absent => rw [hf] at h; simp at h
      | garbage => rw [hf] at h; simp at h
      | record d =>
        rw [hf] at h
        simp only at h
        by_cases hv : d.version ≠ 1
        · rw [if_pos hv] at h
          simp at h
        · rw [if_neg hv] at h
          simp only [Except.ok.injEq, Option.some.injEq] at h
          exact ⟨d, rfl, not_not.mp hv, h.symm⟩

/-- The state reached from the root by choice 0 in the sample scenario. -/
def stateR1 : Current := { id := "R1", depth := 1, trail := ["R", "R1"] }

/-- A version-1 record snapshotting `stateR1`. -/
def recordR1 : SaveData :=
  { version := 1, current := "R1", depth := 1, trail := ["R", "R1"] }

/-- An enabled save manager whose file holds `recordR1`. -/
def managerR1 : SaveManager :=
  { file := FileContents.record recordR1, disabled := false }

/-- C2 witness: a state produced by `transition` satisfies the invariant,
and a loaded state is exactly the record's snapshot. -/
theorem depth_invariant_sources_witness :
    (stateR1.depth = stateR1.id.length - 1) ∧
    (∃ d, managerR1.file = FileContents.record d ∧ d.version = 1 ∧
      stateR1 = { id := d.current, depth := d.depth, trail := d.trail }) :=
  ⟨depth_invariant_sources.2.1 sampleSD Current.default 0 stateR1 rfl,
    depth_invariant_sources.2.2 managerR1 stateR1 rfl⟩

/-- Reference validation of the built map holds exactly when every choice
target is the id of some node of the scenario. -/
theorem validate_references_iff (s : Scenario) :
    validate_references { scenario := s, nodes := buildNodes s.nodes } = true ↔
      ∀ n ∈ s.nodes, ∀ c ∈ n.choices, ∃ m ∈ s.nodes, m.id = c.target_id := by
  unfold validate_references
  simp only [List.all_eq_true, containsKey_eq_isSome, mapGet_buildNodes_isSome_iff]

/-- C3: for every structurally parsed scenario definition, `load_from_json`
succeeds if and only if every `choice.target_id` across every node exists
as the id of some node; any dangling reference rejects the scenario in its
entirety with a load error, the error branch carrying no partial
`ScenarioData`. -/
theorem load_succeeds_iff_references_resolve (s : Scenario) :
    (∃ sd, load_from_json s = Except.ok sd) ↔
      ∀ n ∈ s.nodes, ∀ c ∈ n.choices, ∃ m ∈ s.nodes, m.id = c.target_id := by
  rw [← validate_references_iff s]
  unfold load_from_json
  by_cases hv : validate_references { scenario := s, nodes := buildNodes s.nodes } = true
  · rw [if_pos hv]
    simp [hv]
  · rw [if_neg hv]
    simp [hv]

/-- C4 counterexample: in the loaded empty-target scenario the root
resolves and index 0 lies within its two choices, so by the claim the call
should succeed; instead `transition` produces no result at all (the panic
case, which is neither a success nor one of the two errors). -/
theorem in_range_choice_without_success :
    get_node cexSD "R" = some cexRoot ∧
    cexRoot.choices.length = 2 ∧
    transition cexSD { id := "R", depth := 0, trail := ["R"] } 0 = none :=
  ⟨rfl, rfl, rfl⟩

/-- C4 (amended): `transition` returns `NodeNotFound` exactly when the
state's id does not resolve in the node store, `InvalidChoiceIndex` when
the id resolves but the index is at or beyond the node's choice count (so
any index on a leaf and index 5 on a 2-choice node are rejected), and
succeeds when the index is in range and the chosen target id is non-empty.
The amendment adds the non-emptiness proviso: an in-range choice whose
target id is the empty string panics instead of succeeding. -/
theorem transition_error_trichotomy (sd : ScenarioData) (cur : Current) (i : Nat) :
    (get_node sd cur.id = none →
      transition sd cur i =
        some (Except.error (TransitionError.nodeNotFound cur.id))) ∧
    (∀ node, get_node sd cur.id = some node → node.choices.length ≤ i →
      transition sd cur i =
        some (Except.error (TransitionError.invalidChoiceIndex i cur.id))) ∧
    (∀ node ch, get_node sd cur.id = some node → node.choices[i]? = some ch →
      ch.target_id ≠ "" →
      ∃ c, transition sd cur i = some (Except.ok c)) := by
  refine ⟨?_, ?_, ?_⟩
  · intro h
    unfold transition
    rw [h]
  · intro node h hle
    unfold transition
    rw [h]
    simp only
    rw [dif_neg (Nat.not_lt.mpr hle)]
  · intro node ch h hch hne
    exact ⟨_, transition_ok_of_nonempty_target sd cur i node ch h hch hne⟩

/-- C4 witness: an unresolved id gives `NodeNotFound`, index 5 on the
2-choice root gives `InvalidChoiceIndex`, and an in-range choice with a
non-empty target succeeds. -/
theorem transition_error_trichotomy_witness :
    (transition sampleSD { id := "X", depth := 0, trail := ["X"] } 0 =
      some (Except.error (TransitionError.nodeNotFound "X"))) ∧
    (transition sampleSD Current.default 5 =
      some (Except.error (TransitionError.invalidChoiceIndex 5 "R"))) ∧
    (∃ c, transition sampleSD Current.default 0 = some (Except.ok c)) :=
  ⟨(transition_error_trichotomy sampleSD { id := "X", depth := 0, trail := ["X"] } 0).1 rfl,
    (transition_error_trichotomy sampleSD Current.default 5).2.1 rootNode rfl (by decide),
    (transition_error_trichotomy sampleSD Current.default 0).2.2 rootNode
      { label := "go out", target_id := "R1" } rfl rfl (by decide)⟩

/-- C5: `is_ending` is true exactly when the state's depth equals the
scenario's declared depth and the node resolved from the state's id
carries an ending tag; in every other case — full depth without a tag, or
an unresolvable id — it is false, and being a total `Bool` function it
never errors. -/
theorem is_ending_iff (sd : ScenarioData) (cur : Current) :
    is_ending sd cur = true ↔
      (cur.depth = sd.scenario.meta.depth ∧
        ∃ node, get_node sd cur.id = some node ∧ node.ending.isSome = true) := by
  unfold is_ending
  by_cases hd : cur.depth = sd.scenario.meta.depth
  · rw [if_pos hd]
    cases hg : get_node sd cur.id with
    | none => simp [hd]
    | some node => simp [hd]
  · rw [if_neg hd]
    simp [hd]

/-- C6: round-trip through persistence: saving any state with a
non-disabled store writes a version-1 record, and loading it back returns
`Some` of a state equal to the original in id, depth and trail. -/
theorem save_load_round_trip (m : SaveManager) (c : Current)
    (hdis : m.disabled = false) (_hdepth : 0 < c.depth) :
    (m.save c).load = Except.ok (some c) := by
  unfold SaveManager.save SaveManager.load
  rw [hdis]
  simp

/-- C6 witness: the round trip at a concrete depth-1 state. -/
theorem save_load_round_trip_witness :
    (SaveManager.save { file := FileContents.absent, disabled := false } stateR1).load =
      Except.ok (some stateR1) :=
  save_load_round_trip { file := FileContents.absent, disabled := false } stateR1
    rfl (by decide)

/-- C7: `load` returns `Ok(None)` — not an error — whenever the store is
disabled, whenever no save record exists, and whenever an existing record
carries a schema version different from 1; in the last case the record is
discarded with no attempt at migration, independently of the disabled
flag. -/
theorem load_none_on_missing_disabled_or_version (m : SaveManager) (d : SaveData) :
    (m.disabled = true → m.load = Except.ok none) ∧
    (m.file = FileContents.absent → m.load = Except.ok none) ∧
    (m.file = FileContents.record d → d.version ≠ 1 → m.load = Except.ok none) := by
  refine ⟨?_, ?_, ?_⟩
  · intro h
    unfold SaveManager.load
    rw [if_pos h]
  · intro h
    unfold SaveManager.load
    by_cases hd : m.disabled = true
    · rw [if_pos hd]
    · rw [if_neg hd, h]
  · intro hf hv
    unfold SaveManager.load
    by_cases hd : m.disabled = true
    · rw [if_pos hd]
    · rw [if_neg hd, hf]
      simp only
      rw [if_pos hv]

/-- C7 witness: a disabled store, a missing file, and a version-255 record
each load as `Ok(None)`. -/
theorem load_none_on_missing_disabled_or_version_witness :
    (SaveManager.load { file := FileContents.absent, disabled := true } =
      Except.ok none) ∧
    (SaveManager.load { file := FileContents.absent, disabled := false } =
      Except.ok none) ∧
    (SaveManager.load
        { file := FileContents.record
            { version := 255, current := "R", depth := 0, trail := ["R"] },
          disabled := false } =
      Except.ok none) :=
  ⟨(load_none_on_missing_disabled_or_version
      { file := FileContents.absent, disabled := true }
      { version := 255, current := "R", depth := 0, trail := ["R"] }).1 rfl,
    (load_none_on_missing_disabled_or_version
      { file := FileContents.absent, disabled := false }
      { version := 255, current := "R", depth := 0, trail := ["R"] }).2.1 rfl,
    (load_none_on_missing_disabled_or_version
      { file := FileContents.record
          { version := 255, current := "R", depth := 0, trail := ["R"] },
        disabled := false }
      { version := 255, current := "R", depth := 0, trail := ["R"] }).2.2 rfl
      (by decide)⟩

/-- C8: fallback policy of `get_node_or_fallback` on a loaded scenario:
an exact match is returned (and its id is the requested one); failing
that, the root node `"R"`; failing that, the first node in original
definition order; and the result is the `panic!` (modelled `none`) exactly
when the scenario has no nodes at all. -/
theorem get_node_or_fallback_policy (s : Scenario) (sd : ScenarioData)
    (id : String) (hload : load_from_json s = Except.ok sd) :
    (∀ n, get_node sd id = some n →
      get_node_or_fallback sd id = some n ∧ n.id = id) ∧
    (∀ r, get_node sd id = none → get_node sd "R" = some r →
      get_node_or_fallback sd id = some r ∧ r.id = "R") ∧
    (get_node sd id = none → get_node sd "R" = none →
      get_node_or_fallback sd id = s.nodes.head?) ∧
    (get_node_or_fallback sd id = none ↔ s.nodes = []) := by
  obtain ⟨hsc, hnd⟩ := load_from_json_ok hload
  refine ⟨?_, ?_, ?_, ?_⟩
  · intro n h
    unfold get_node at h
    refine ⟨?_, ?_⟩
    · unfold get_node_or_fallback
      rw [h]
    · rw [hnd] at h
      exact (mapGet_buildNodes_some h).1
  · intro r h hr
    unfold get_node at h hr
    refine ⟨?_, ?_⟩
    · unfold get_node_or_fallback
      rw [h, hr]
    · rw [hnd] at hr
      exact (mapGet_buildNodes_some hr).1
  · intro h hr
    unfold get_node at h hr
    unfold get_node_or_fallback
    rw [h, hr, hsc]
  · constructor
    · intro h
      unfold get_node_or_fallback at h
      cases hg : mapGet sd.nodes id with
      | some n => rw [hg] at h; simp at h
      | none =>
        rw [hg] at h
        cases hr : mapGet sd.nodes "R" with
        | some r => rw [hr] at h; simp at h
        | none =>
          rw [hr] at h
          simp only at h
          rw [hsc] at h
          exact List.head?_eq_none_iff.mp h
    · intro h
      unfold get_node_or_fallback
      rw [hnd, hsc, h]
      rfl

/-- C8 witness: the exact-match branch at node `R1` of the loaded sample
scenario. -/
theorem get_node_or_fallback_policy_witness :
    get_node_or_fallback sampleSD "R1" = some nodeR1 ∧ nodeR1.id = "R1" :=
  (get_node_or_fallback_policy sampleScenario sampleSD "R1" rfl).1 nodeR1 rfl

/-- The finished state at the ending node `R11` of the sample scenario. -/
def finishedCurrent : Current :=
  { id := "R11", depth := 2, trail := ["R", "R1", "R11"] }

/-- A session at the Ending screen with `finishedCurrent` in memory and
its auto-saved record on disk. -/
def finishedSession : Session :=
  { app_state := AppState.Ending,
    current := some finishedCurrent,
    save_manager :=
      { file := FileContents.record
          { version := 1, current := "R11", depth := 2,
            trail := ["R", "R1", "R11"] },
        disabled := false } }

/-- C9 counterexample: processing a restart intent only sets the next app
state; the in-memory `Current` resource is not discarded — it still holds
the finished state after the restart is handled. -/
theorem restart_keeps_current_resource :
    (handle_restart finishedSession true).app_state = AppState.Title ∧
    (handle_restart finishedSession true).current = some finishedCurrent ∧
    ((handle_restart finishedSession true).current).isSome = true :=
  ⟨rfl, rfl, rfl⟩

/-- C9 (amended): a restart intent moves the session to Title
unconditionally and touches neither the in-memory `Current` resource —
which is left in place, stale, until replaced wholesale by the next begin
or continue — nor the save manager, so the finished save on disk remains
loadable via continue; and the auto-save system leaves the store
untouched outside the Playing state, and for an unchanged state or one at
depth 0. -/
theorem restart_to_title_without_persisting (sess : Session) (changed : Bool) :
    (handle_restart sess true).app_state = AppState.Title ∧
    (handle_restart sess true).current = sess.current ∧
    (handle_restart sess true).save_manager = sess.save_manager ∧
    (handle_restart sess true).save_manager.load = sess.save_manager.load ∧
    (sess.app_state ≠ AppState.Playing → auto_save_system sess changed = sess) ∧
    (∀ c, sess.current = some c → c.depth = 0 →
      auto_save_system sess changed = sess) := by
  refine ⟨rfl, rfl, rfl, rfl, ?_, ?_⟩
  · intro h
    unfold auto_save_system
    rw [if_neg h]
  · intro c hc h0
    unfold auto_save_system
    by_cases hp : sess.app_state = AppState.Playing
    · rw [if_pos hp, hc]
      simp only
      have hno : ¬(changed = true ∧ c.depth > 0) := by
        rintro ⟨_, hgt⟩
        omega
      rw [if_neg hno]
    · rw [if_neg hp]

/-- C9 witness: at the concrete Ending-screen session, a restart yields
Title with the `Current` resource and the save manager untouched, and the
auto-save system (gated to Playing) leaves the session unchanged. -/
theorem restart_to_title_without_persisting_witness :
    (handle_restart finishedSession true).app_state = AppState.Title ∧
    (handle_restart finishedSession true).save_manager =
      finishedSession.save_manager ∧
    auto_save_system finishedSession true = finishedSession :=
  ⟨(restart_to_title_without_persisting finishedSession true).1,
    (restart_to_title_without_persisting finishedSession true).2.2.1,
    (restart_to_title_without_persisting finishedSession true).2.2.2.2.1
      (by decide)⟩

/-- C10: the next depth is computed as `next_id.len() - 1` with no guard,
so `transition` completes exactly when the chosen target id is non-empty:
the concrete scenario whose root references the empty-string node id
passes load-time validation, yet selecting that choice underflows the
subtraction (a panic in debug builds, modelled `none`; a release build
would instead wrap to `2 ^ 64 - 1`) instead of returning an error; and in
general `transition` panics iff the id resolves, the index is in range,
and the chosen target id is the empty string. -/
theorem transition_panics_iff_empty_target :
    load_from_json cexScenario = Except.ok cexSD ∧
    transition cexSD Current.default 0 = none ∧
    ∀ sd cur i, transition sd cur i = none ↔
      ∃ node ch, get_node sd cur.id = some node ∧
        node.choices[i]? = some ch ∧ ch.target_id = "" := by
  refine ⟨rfl, rfl, ?_⟩
  intro sd cur i
  unfold transition
  cases hg : get_node sd cur.id with
  | none => simp
  | some node =>
    simp only [Option.some.injEq]
    constructor
    · intro h
      by_cases hi : i < node.choices.length
      · rw [dif_pos hi] at h
        cases hu : usizeSub (node.choices[i]).target_id.length 1 with
        | some nd => rw [hu] at h; simp at h
        | none =>
          unfold usizeSub at hu
          by_cases hl : 1 ≤ (node.choices[i]).target_id.length
          · rw [if_pos hl] at hu
            cases hu
          · refine ⟨node, node.choices[i], rfl, List.getElem?_eq_getElem hi, ?_⟩
            have hz : (node.choices[i]).target_id.length = 0 := by omega
            exact (string_length_eq_zero_iff _).mp hz
      · rw [dif_neg hi] at h
        simp at h
    · rintro ⟨node2, ch, hnode2, hch, hemp⟩
      cases hnode2
      obtain ⟨hi, hgt⟩ := List.getElem?_eq_some.mp hch
      have hz : ch.target_id.length = 0 := (string_length_eq_zero_iff _).mpr hemp
      rw [dif_pos hi]
      simp only [hgt]
      unfold usizeSub
      rw [hz]
      rfl

end Routes64
